import Mathlib

/-!
Verification of the retrieval and answer-orchestration pipeline of Core_RAG
(`src/core_rag/retrieval/`): query routing (`query_router.py`), hybrid search
with fusion and cross-collection deduplication (`search.py`), and the answer
orchestrator (`answer.py`, `unified_rag.py`).

The Python code is shallowly embedded: pure dict/list manipulation becomes
Lean functions over explicit structures; external collaborators (vector store,
BM25 index, embedding service, reranker, language model, JSON parser) are
passed in as function parameters, since their internals live outside this
repository.  Python floats used for relevance scores are modelled as rationals
(only order comparisons are performed on them).  `filename.py` references in
doc comments point into `src/core_rag/retrieval/`.
-/

set_option maxRecDepth 8192

namespace CoreRag

/-- RetrievedFragment: the dict shape produced by `dense_search` in
`search.py` (`{'text', 'score', 'metadata', 'collection'}`), with the optional
top-level `doc_id` key that summary-gated documents may carry.  The metadata
dict is modelled as an association list of string keys. -/
structure Frag where
  text : String
  score : ℚ
  meta : List (String × String)
  doc_id : Option String
  collection : String
  deriving DecidableEq, Repr

/-- Fingerprint used for deduplication in `search_multiple_collections`
(`search.py` line 80): the first 200 characters of the fragment text
(`r.get('text', '')[:200]`), built through `List.take` on the character
list, which agrees with `String.take`. -/
def fingerprint (r : Frag) : String := String.mk (r.text.toList.take 200)

/-- Lookup in an association list modelling Python dict access `seen[key]`
(and `key in seen` via `isSome`). -/
def alookup (k : String) : List (String × Frag) → Option Frag
  | [] => none
  | (k', v) :: rest => if k' = k then some v else alookup k rest

/-- One iteration of the dedup loop of `search_multiple_collections`
(`search.py` lines 79-82): `if key not in seen or r.score > seen[key].score:
seen[key] = r`.  A Python dict keeps the insertion position of a key on
overwrite and appends new keys at the end, which is exactly what this
in-place association-list update does. -/
def updateSeen : List (String × Frag) → Frag → List (String × Frag)
  | [], r => [(fingerprint r, r)]
  | (k, v) :: rest, r =>
    if k = fingerprint r then
      (if v.score < r.score then (k, r) else (k, v)) :: rest
    else (k, v) :: updateSeen rest r

/-- The `seen` dict after the whole dedup loop of
`search_multiple_collections` has run over `rs`. -/
def buildSeen (rs : List Frag) : List (String × Frag) := rs.foldl updateSeen []

/-- Boolean comparison realizing Python
`sorted(seen.values(), key=lambda x: x.get('score', 0), reverse=True)`:
descending by score; `List.mergeSort` is stable, as is Python `sorted`. -/
def scoreDesc (a b : Frag) : Bool := decide (b.score ≤ a.score)

/-- Dedup-then-sort tail of `search_multiple_collections` (`search.py`
lines 78-83). -/
def dedupAndSort (rs : List Frag) : List Frag :=
  ((buildSeen rs).map Prod.snd).mergeSort scoreDesc

/-- Reference function describing which fragment the dedup dict retains for
one fingerprint: fold the strict-improvement rule over the fragments carrying
that fingerprint, in encounter order. -/
def survivorFrom (cur : Option Frag) : List Frag → Option Frag
  | [] => cur
  | r :: rest =>
    survivorFrom (match cur with
      | none => some r
      | some v => if v.score < r.score then some r else some v) rest

theorem alookup_updateSeen (seen : List (String × Frag)) (r : Frag) (k : String) :
    alookup k (updateSeen seen r) =
      if fingerprint r = k then
        (match alookup k seen with
          | none => some r
          | some v => if v.score < r.score then some r else some v)
      else alookup k seen := by
  induction seen with
  | nil =>
    by_cases h : fingerprint r = k <;> simp [updateSeen, alookup, h]
  | cons p rest ih =>
    obtain ⟨k', v⟩ := p
    by_cases hk : k' = fingerprint r
    · by_cases hfk : fingerprint r = k
      · by_cases hs : v.score < r.score <;>
          simp [updateSeen, alookup, hk, hfk, hs]
      · by_cases hs : v.score < r.score <;>
          simp [updateSeen, alookup, hk, hfk, hs]
    · by_cases hk'k : k' = k
      · have hfk : ¬ fingerprint r = k := fun h => hk (hk'k.trans h.symm)
        have hk2 : ¬ k = fingerprint r := fun h => hfk h.symm
        simp [updateSeen, alookup, hk2, hk'k, hfk]
      · simp [updateSeen, alookup, hk, hk'k, ih]

theorem alookup_foldl_updateSeen (rs : List Frag) (seen : List (String × Frag)) (k : String) :
    alookup k (rs.foldl updateSeen seen) =
      survivorFrom (alookup k seen) (rs.filter (fun r => fingerprint r = k)) := by
  induction rs generalizing seen with
  | nil => simp [survivorFrom]
  | cons r rest ih =>
    by_cases h : fingerprint r = k
    · rw [List.foldl_cons, ih, alookup_updateSeen,
        List.filter_cons_of_pos (by simpa using h)]
      simp only [h, if_true, survivorFrom]
    · rw [List.foldl_cons, ih, alookup_updateSeen,
        List.filter_cons_of_neg (by simpa using h)]
      simp [h]

theorem alookup_buildSeen (rs : List Frag) (k : String) :
    alookup k (buildSeen rs) =
      survivorFrom none (rs.filter (fun r => fingerprint r = k)) := by
  simpa [alookup] using alookup_foldl_updateSeen rs [] k

theorem survivorFrom_mem {l : List Frag} :
    ∀ {cur : Option Frag} {v : Frag}, survivorFrom cur l = some v → cur = some v ∨ v ∈ l := by
  induction l with
  | nil => exact fun h => Or.inl h
  | cons r rest ih =>
    intro cur v h
    cases cur with
    | none =>
      have h' : survivorFrom (some r) rest = some v := by simpa [survivorFrom] using h
      rcases ih h' with h'' | h''
      · exact Or.inr (List.mem_cons.mpr (Or.inl (Option.some.inj h'').symm))
      · exact Or.inr (List.mem_cons_of_mem _ h'')
    | some w =>
      by_cases hs : w.score < r.score
      · have h' : survivorFrom (some r) rest = some v := by simpa [survivorFrom, hs] using h
        rcases ih h' with h'' | h''
        · exact Or.inr (List.mem_cons.mpr (Or.inl (Option.some.inj h'').symm))
        · exact Or.inr (List.mem_cons_of_mem _ h'')
      · have h' : survivorFrom (some w) rest = some v := by simpa [survivorFrom, hs] using h
        rcases ih h' with h'' | h''
        · exact Or.inl h''
        · exact Or.inr (List.mem_cons_of_mem _ h'')

theorem survivorFrom_dominates {l : List Frag} :
    ∀ {cur : Option Frag} {v : Frag}, survivorFrom cur l = some v →
      (∀ c, cur = some c → c.score ≤ v.score) ∧ (∀ r ∈ l, r.score ≤ v.score) := by
  induction l with
  | nil =>
    intro cur v h
    refine ⟨fun c hc => ?_, fun r hr => absurd hr (List.not_mem_nil r)⟩
    rw [hc] at h
    rw [Option.some.inj h]
  | cons r rest ih =>
    intro cur v h
    cases cur with
    | none =>
      have h' : survivorFrom (some r) rest = some v := by simpa [survivorFrom] using h
      have step := ih h'
      refine ⟨fun c hc => by simp at hc, fun x hx => ?_⟩
      rcases List.mem_cons.mp hx with hx | hx
      · exact hx ▸ step.1 r rfl
      · exact step.2 x hx
    | some w =>
      by_cases hs : w.score < r.score
      · have h' : survivorFrom (some r) rest = some v := by simpa [survivorFrom, hs] using h
        have step := ih h'
        refine ⟨fun c hc => ?_, fun x hx => ?_⟩
        · have hcw : c = w := Option.some.inj hc.symm
          exact le_of_lt (lt_of_lt_of_le (hcw ▸ hs) (step.1 r rfl))
        · rcases List.mem_cons.mp hx with hx | hx
          · exact hx ▸ step.1 r rfl
          · exact step.2 x hx
      · have h' : survivorFrom (some w) rest = some v := by simpa [survivorFrom, hs] using h
        have step := ih h'
        refine ⟨fun c hc => ?_, fun x hx => ?_⟩
        · have hcw : c = w := Option.some.inj hc.symm
          exact hcw ▸ step.1 w rfl
        · rcases List.mem_cons.mp hx with hx | hx
          · exact hx ▸ le_trans (not_lt.mp hs) (step.1 w rfl)
          · exact step.2 x hx

theorem survivorFrom_isSome (l : List Frag) : ∀ (c : Frag), (survivorFrom (some c) l).isSome := by
  induction l with
  | nil => intro c; rfl
  | cons r rest ih =>
    intro c
    by_cases hs : c.score < r.score <;> simp [survivorFrom, hs, ih]

theorem mem_updateSeen {r : Frag} {p : String × Frag} :
    ∀ {seen : List (String × Frag)}, p ∈ updateSeen seen r → p ∈ seen ∨ p = (fingerprint r, r) := by
  intro seen
  induction seen with
  | nil =>
    intro hp
    simp [updateSeen] at hp
    exact Or.inr hp
  | cons q rest ih =>
    obtain ⟨k, v⟩ := q
    intro hp
    by_cases hk : k = fingerprint r
    · by_cases hs : v.score < r.score
      · simp only [updateSeen, if_pos hk, if_pos hs, List.mem_cons] at hp
        rcases hp with hp | hp
        · exact Or.inr (by rw [hp, hk])
        · exact Or.inl (List.mem_cons_of_mem _ hp)
      · simp only [updateSeen, if_pos hk, if_neg hs, List.mem_cons] at hp
        rcases hp with hp | hp
        · exact Or.inl (hp ▸ List.mem_cons_self _ _)
        · exact Or.inl (List.mem_cons_of_mem _ hp)
    · simp only [updateSeen, if_neg hk, List.mem_cons] at hp
      rcases hp with hp | hp
      · exact Or.inl (hp ▸ List.mem_cons_self _ _)
      · rcases ih hp with h | h
        · exact Or.inl (List.mem_cons_of_mem _ h)
        · exact Or.inr h

theorem keys_updateSeen (seen : List (String × Frag)) (r : Frag) :
    (updateSeen seen r).map Prod.fst =
      if fingerprint r ∈ seen.map Prod.fst then seen.map Prod.fst
      else seen.map Prod.fst ++ [fingerprint r] := by
  induction seen with
  | nil => simp [updateSeen]
  | cons q rest ih =>
    obtain ⟨k, v⟩ := q
    by_cases hk : k = fingerprint r
    · by_cases hs : v.score < r.score <;> simp [updateSeen, hk, hs]
    · have hfk : ¬ fingerprint r = k := fun h => hk h.symm
      by_cases hm : fingerprint r ∈ rest.map Prod.fst <;>
        simp [updateSeen, hk, ih, hm, hfk]

theorem keys_nodup_foldl : ∀ (rs : List Frag) (seen : List (String × Frag)),
    (seen.map Prod.fst).Nodup → ((rs.foldl updateSeen seen).map Prod.fst).Nodup := by
  intro rs
  induction rs with
  | nil => exact fun seen h => h
  | cons r rest ih =>
    intro seen h
    refine ih _ ?_
    rw [keys_updateSeen]
    by_cases hm : fingerprint r ∈ seen.map Prod.fst
    · simpa [hm] using h
    · simp [hm, List.nodup_append, h]

theorem fst_eq_fingerprint_foldl : ∀ (rs : List Frag) (seen : List (String × Frag)),
    (∀ p ∈ seen, fingerprint p.2 = p.1) →
      ∀ p ∈ rs.foldl updateSeen seen, fingerprint p.2 = p.1 := by
  intro rs
  induction rs with
  | nil => exact fun seen h => h
  | cons r rest ih =>
    intro seen h
    refine ih _ ?_
    intro p hp
    rcases mem_updateSeen hp with h' | h'
    · exact h p h'
    · rw [h']

theorem mem_foldl_updateSeen : ∀ (rs : List Frag) (seen : List (String × Frag)) (p : String × Frag),
    p ∈ rs.foldl updateSeen seen → p ∈ seen ∨ p.2 ∈ rs := by
  intro rs
  induction rs with
  | nil => exact fun seen p h => Or.inl h
  | cons r rest ih =>
    intro seen p hp
    rcases ih _ p hp with h | h
    · rcases mem_updateSeen h with h' | h'
      · exact Or.inl h'
      · exact Or.inr (by rw [h']; exact List.mem_cons_self _ _)
    · exact Or.inr (List.mem_cons_of_mem _ h)

theorem alookup_mem {k : String} :
    ∀ {seen : List (String × Frag)} {v : Frag}, alookup k seen = some v → (k, v) ∈ seen := by
  intro seen
  induction seen with
  | nil => intro v h; cases h
  | cons q rest ih =>
    obtain ⟨k', w⟩ := q
    intro v h
    by_cases hk : k' = k
    · rw [alookup, if_pos hk] at h
      exact List.mem_cons.mpr (Or.inl (by rw [hk, Option.some.inj h]))
    · rw [alookup, if_neg hk] at h
      exact List.mem_cons_of_mem _ (ih h)

/-- External collaborators of `SearchEngine` (`search.py`): the dense side
(query embedding plus vector-store `query_points`, `dense_search` lines
39-50) and the sparse side (`bm25_retriever.search`, which may raise, hence
`Except`).  The user-context / document-type filter is forwarded opaquely to
the store, so it is absorbed into these functions.  `bm25_present` models
`self.bm25_retriever` being non-None and `hybrid_disabled` the
`HYBRID_DISABLED` flag. -/
structure SearchEnv where
  dense : String → String → ℕ → List Frag
  sparse : String → String → ℕ → Except String (List Frag)
  bm25_present : Bool
  hybrid_disabled : Bool

/-- Modelled from the spec: `fusion.py` (class `HybridRetriever`, imported by
`search.py` line 54 and `unified_rag.py` line 14) is not among the source
files, so Reciprocal Rank Fusion is modelled from spec section 4.2.
`rankOf` is the 1-indexed rank of the fragment with the given text key in a
ranked list, `none` when absent. -/
def rankOf (key : String) (l : List Frag) : Option ℕ :=
  match l.findIdx? (fun f => f.text = key) with
  | some i => some (i + 1)
  | none => none

/-- Modelled from the spec: the fused RRF score of a key is the sum over
every ranked list containing it of `1 / (k + rank)` with 1-indexed rank;
a list not containing the key contributes nothing. -/
def rrfScore (k : ℕ) (key : String) (lists : List (List Frag)) : ℚ :=
  (lists.map (fun l =>
    match rankOf key l with
    | some r => (1 : ℚ) / ((k + r : ℕ) : ℚ)
    | none => 0)).sum

/-- First fragment carrying the given text key, used to align fragments
across lists (spec section 4.2: stable key is the fragment text). -/
def firstWithText (key : String) (l : List Frag) : Option Frag :=
  l.find? (fun f => f.text = key)

/-- Modelled from the spec: `HybridRetriever().reciprocal_rank_fusion(dense,
sparse, k=60)`.  Every key occurring in either list is scored with
`rrfScore`; the result is sorted descending by fused score, ties broken by
position in the dense-first key order (`mergeSort` is stable). -/
def reciprocal_rank_fusion (dense sparse : List Frag) (k : ℕ) : List Frag :=
  let keys := (dense.map (fun f => f.text) ++ sparse.map (fun f => f.text)).eraseDups
  let scored := keys.filterMap (fun t =>
    (firstWithText t (dense ++ sparse)).map
      (fun f => { f with score := rrfScore k t [dense, sparse] }))
  scored.mergeSort scoreDesc

/-- `hybrid_search` (`search.py` lines 52-63): dense retrieval, then sparse
retrieval and RRF fusion with `k = 60` inside a `try`; any exception from the
sparse call falls back to `dense_results[:top_k]`. -/
def hybrid_search (env : SearchEnv) (q c : String) (top_k : ℕ) : List Frag :=
  let dense_results := env.dense q c top_k
  match env.sparse q c top_k with
  | Except.ok sparse_results => (reciprocal_rank_fusion dense_results sparse_results 60).take top_k
  | Except.error _ => dense_results.take top_k

/-- `search_collection` (`search.py` lines 65-69): dense-only when hybrid is
disabled or no BM25 retriever is configured, hybrid otherwise. -/
def search_collection (env : SearchEnv) (q c : String) (top_k : ℕ) : List Frag :=
  if env.hybrid_disabled || !env.bm25_present then env.dense q c top_k
  else hybrid_search env q c top_k

/-- The concatenation loop of `search_multiple_collections` (`search.py`
lines 74-77): per-collection budget from `(chunk_allocation or {}).get(name,
top_k_per_collection)`. -/
def gather_results (env : SearchEnv) (q : String) (names : List String)
    (top_k_per : ℕ) (alloc : Option (List (String × ℕ))) : List Frag :=
  names.flatMap (fun name =>
    search_collection env q name (((alloc.getD []).lookup name).getD top_k_per))

/-- `search_multiple_collections` (`search.py` lines 71-83): concatenate
per-collection results, deduplicate by fingerprint keeping the
strictly-higher-scoring duplicate, and sort descending by score. -/
def search_multiple_collections (env : SearchEnv) (q : String) (names : List String)
    (top_k_per : ℕ) (alloc : Option (List (String × ℕ))) : List Frag :=
  dedupAndSort (gather_results env q names top_k_per alloc)

theorem mem_dedupAndSort {rs : List Frag} {v : Frag} :
    v ∈ dedupAndSort rs ↔ v ∈ (buildSeen rs).map Prod.snd := by
  exact (List.mergeSort_perm ((buildSeen rs).map Prod.snd) scoreDesc).mem_iff

theorem scoreDesc_trans_total :
    (∀ a b c : Frag, scoreDesc a b → scoreDesc b c → scoreDesc a c) ∧
      (∀ a b : Frag, scoreDesc a b || scoreDesc b a) := by
  constructor
  · intro a b c hab hbc
    simp only [scoreDesc, decide_eq_true_eq] at *
    exact le_trans hbc hab
  · intro a b
    simp only [scoreDesc, Bool.or_eq_true, decide_eq_true_eq]
    exact le_total b.score a.score

theorem dedupAndSort_sorted (rs : List Frag) :
    (dedupAndSort rs).Pairwise (fun a b => b.score ≤ a.score) := by
  have h : (List.mergeSort ((buildSeen rs).map Prod.snd) scoreDesc).Pairwise
      (fun a b => scoreDesc a b = true) :=
    List.sorted_mergeSort (fun a b c => scoreDesc_trans_total.1 a b c)
      (fun a b => scoreDesc_trans_total.2 a b) ((buildSeen rs).map Prod.snd)
  exact h.imp (fun hab => by simpa [scoreDesc] using hab)

/-- C6: in `search_multiple_collections`, for any two concatenated fragments
sharing a 200-character fingerprint, exactly one fragment with that
fingerprint survives (fingerprints in the output are pairwise distinct), the
survivor's score dominates every same-fingerprint fragment of the input
(hence of the pair, the higher-scoring one survives), every output fragment
comes from the input, and the merged list is sorted descending by score. -/
theorem C6_dedup_unique_dominating_sorted (env : SearchEnv) (q : String) (names : List String)
    (top_k_per : ℕ) (alloc : Option (List (String × ℕ))) :
    ((search_multiple_collections env q names top_k_per alloc).map fingerprint).Nodup
    ∧ (∀ r ∈ gather_results env q names top_k_per alloc,
        ∃ v ∈ search_multiple_collections env q names top_k_per alloc,
          fingerprint v = fingerprint r ∧ r.score ≤ v.score)
    ∧ (∀ v ∈ search_multiple_collections env q names top_k_per alloc,
        v ∈ gather_results env q names top_k_per alloc)
    ∧ (search_multiple_collections env q names top_k_per alloc).Pairwise
        (fun a b => b.score ≤ a.score) := by
  have hwf : ∀ p ∈ buildSeen (gather_results env q names top_k_per alloc),
      fingerprint p.2 = p.1 :=
    fst_eq_fingerprint_foldl _ [] (fun p h => absurd h (List.not_mem_nil p))
  refine ⟨?_, ?_, ?_, dedupAndSort_sorted _⟩
  · have hperm := (List.mergeSort_perm
      ((buildSeen (gather_results env q names top_k_per alloc)).map Prod.snd) scoreDesc).map fingerprint
    refine hperm.nodup_iff.mpr ?_
    rw [List.map_map]
    have heq : (buildSeen (gather_results env q names top_k_per alloc)).map
        (fingerprint ∘ Prod.snd) =
        (buildSeen (gather_results env q names top_k_per alloc)).map Prod.fst :=
      List.map_congr_left (fun p hp => hwf p hp)
    rw [heq]
    exact keys_nodup_foldl _ [] (by simp)
  · intro r hr
    have halo := alookup_buildSeen (gather_results env q names top_k_per alloc) (fingerprint r)
    have hrf : r ∈ (gather_results env q names top_k_per alloc).filter
        (fun x => fingerprint x = fingerprint r) :=
      List.mem_filter.mpr ⟨hr, by simp⟩
    obtain ⟨v, hv⟩ : ∃ v, alookup (fingerprint r)
        (buildSeen (gather_results env q names top_k_per alloc)) = some v := by
      rw [halo]
      cases hfil : (gather_results env q names top_k_per alloc).filter
          (fun x => fingerprint x = fingerprint r) with
      | nil => rw [hfil] at hrf; exact absurd hrf (List.not_mem_nil r)
      | cons a tail =>
        have : (survivorFrom (some a) tail).isSome := survivorFrom_isSome tail a
        exact Option.isSome_iff_exists.mp (by simpa [survivorFrom] using this)
    have hpair := alookup_mem hv
    refine ⟨v, ?_, hwf _ hpair, ?_⟩
    · exact mem_dedupAndSort.mpr (List.mem_map_of_mem Prod.snd hpair)
    · have hsv : survivorFrom none ((gather_results env q names top_k_per alloc).filter
          (fun x => fingerprint x = fingerprint r)) = some v := by rw [← halo]; exact hv
      exact (survivorFrom_dominates hsv).2 r hrf
  · intro v hv
    obtain ⟨p, hp, hpv⟩ := List.mem_map.mp (mem_dedupAndSort.mp hv)
    rcases mem_foldl_updateSeen _ [] p hp with h | h
    · exact absurd h (List.not_mem_nil p)
    · exact hpv ▸ h

/-- C10: when exactly two fragments of the concatenated results share a
fingerprint and their scores are exactly equal, the dedup dict keeps the one
encountered first (replacement in `search.py` line 81 requires a strictly
greater score), and that first fragment is the one appearing in the final
merged output. -/
theorem C10_equal_scores_first_encountered_kept (env : SearchEnv) (q : String)
    (names : List String) (top_k_per : ℕ) (alloc : Option (List (String × ℕ)))
    (a b : Frag) (fp : String)
    (hfilter : (gather_results env q names top_k_per alloc).filter
      (fun r => fingerprint r = fp) = [a, b])
    (hscore : a.score = b.score) :
    alookup fp (buildSeen (gather_results env q names top_k_per alloc)) = some a
    ∧ a ∈ search_multiple_collections env q names top_k_per alloc := by
  have halo := alookup_buildSeen (gather_results env q names top_k_per alloc) fp
  rw [hfilter] at halo
  have hlt : ¬ a.score < b.score := by rw [hscore]; exact lt_irrefl _
  have hres : alookup fp (buildSeen (gather_results env q names top_k_per alloc)) = some a := by
    rw [halo]
    simp [survivorFrom, hlt]
  refine ⟨hres, ?_⟩
  exact mem_dedupAndSort.mpr (List.mem_map_of_mem Prod.snd (alookup_mem hres))

/-- C5: with hybrid disabled or no sparse retriever configured,
`search_collection` returns the dense results untouched; when the sparse
search raises, it returns the dense results truncated to `top_k`.  In both
cases no exception propagates (the embedding is a total function). -/
theorem C5_dense_fallback (env : SearchEnv) (q c : String) (top_k : ℕ) :
    (env.hybrid_disabled = true ∨ env.bm25_present = false →
      search_collection env q c top_k = env.dense q c top_k)
    ∧ (∀ e, env.sparse q c top_k = Except.error e →
        env.hybrid_disabled = false → env.bm25_present = true →
        search_collection env q c top_k = (env.dense q c top_k).take top_k) := by
  constructor
  · intro h
    rcases h with h | h <;> simp [search_collection, h]
  · intro e he hd hb
    simp [search_collection, hd, hb, hybrid_search, he]

/-- C4: in the spec-modelled Reciprocal Rank Fusion with `k = 60`, a key at
rank 1 in both lists scores `2/(60+1)`; a key present in exactly one list at
rank `r` scores `1/(60+r)`; and every fragment of the fused output carries
exactly the `rrfScore` of its text key over the dense and sparse lists. -/
theorem C4_rrf_fused_scores (dense sparse : List Frag) (t : String) (r : ℕ) :
    (rankOf t dense = some 1 → rankOf t sparse = some 1 →
      rrfScore 60 t [dense, sparse] = 2 / 61)
    ∧ (rankOf t dense = some r → rankOf t sparse = none →
      rrfScore 60 t [dense, sparse] = 1 / (60 + (r : ℚ)))
    ∧ (rankOf t dense = none → rankOf t sparse = some r →
      rrfScore 60 t [dense, sparse] = 1 / (60 + (r : ℚ)))
    ∧ (∀ f ∈ reciprocal_rank_fusion dense sparse 60,
        f.score = rrfScore 60 f.text [dense, sparse]) := by
  refine ⟨?_, ?_, ?_, ?_⟩
  · intro h1 h2
    simp [rrfScore, h1, h2]
    norm_num
  · intro h1 h2
    simp [rrfScore, h1, h2]
  · intro h1 h2
    simp [rrfScore, h1, h2]
  · intro f hf
    have hf' := (List.mergeSort_perm _ scoreDesc).mem_iff.mp hf
    obtain ⟨t', ht', heq⟩ := List.mem_filterMap.mp hf'
    cases hfind : firstWithText t' (dense ++ sparse) with
    | none => rw [hfind] at heq; cases heq
    | some g =>
      rw [hfind] at heq
      have hg : g.text = t' := by
        have := List.find?_some hfind
        simpa using this
      have hfg : f = { g with score := rrfScore 60 t' [dense, sparse] } :=
        (Option.some.inj heq).symm
      rw [hfg]
      simp [hg]

/-- Concrete fragment used by witness instances. -/
def wFrag (t : String) (s : ℚ) (c : String) : Frag :=
  { text := t, score := s, meta := [], doc_id := none, collection := c }

/-- Concrete search environment whose sparse retriever raises. -/
def wEnvSparseFails : SearchEnv :=
  { dense := fun _ _ _ => [wFrag "alpha" 1 "c1", wFrag "beta" (1/2) "c1"]
    sparse := fun _ _ _ => Except.error "connection refused"
    bm25_present := true
    hybrid_disabled := false }

/-- Concrete two-collection dense-only environment producing one duplicate
pair with equal scores. -/
def wEnvTwoCols : SearchEnv :=
  { dense := fun _ c _ => if c = "c1" then [wFrag "same text" 1 "c1"] else [wFrag "same text" 1 "c2"]
    sparse := fun _ _ _ => Except.error "unused"
    bm25_present := false
    hybrid_disabled := false }

theorem C5_dense_fallback_witness :
    search_collection wEnvSparseFails "q" "c1" 1 =
      (wEnvSparseFails.dense "q" "c1" 1).take 1 :=
  (C5_dense_fallback wEnvSparseFails "q" "c1" 1).2 "connection refused" rfl rfl rfl

theorem C6_dedup_witness :
    ∃ v ∈ search_multiple_collections wEnvTwoCols "q" ["c1", "c2"] 8 none,
      fingerprint v = fingerprint (wFrag "same text" 1 "c1")
      ∧ (wFrag "same text" 1 "c1").score ≤ v.score :=
  (C6_dedup_unique_dominating_sorted wEnvTwoCols "q" ["c1", "c2"] 8 none).2.1
    (wFrag "same text" 1 "c1") (by decide)

theorem C10_equal_scores_witness :
    alookup "same text" (buildSeen (gather_results wEnvTwoCols "q" ["c1", "c2"] 8 none)) =
      some (wFrag "same text" 1 "c1")
    ∧ wFrag "same text" 1 "c1" ∈ search_multiple_collections wEnvTwoCols "q" ["c1", "c2"] 8 none :=
  C10_equal_scores_first_encountered_kept wEnvTwoCols "q" ["c1", "c2"] 8 none
    (wFrag "same text" 1 "c1") (wFrag "same text" 1 "c2") "same text" (by decide) rfl

theorem C4_rrf_witness :
    rrfScore 60 "alpha" [[wFrag "alpha" 1 "c1"], [wFrag "alpha" (1/2) "c1"]] = 2 / 61 :=
  (C4_rrf_fused_scores [wFrag "alpha" 1 "c1"] [wFrag "alpha" (1/2) "c1"] "alpha" 1).1 rfl rfl

/-- RoutingDecision (`query_router.py`): the dict
`{'collections', 'token_allocation', 'reasoning'}`. -/
structure RoutingDecision where
  collections : List String
  token_allocation : Int
  reasoning : String
  deriving DecidableEq, Repr

/-- The configuration slices read by `QueryRouter`: the `query_router` section
(keywords, descriptions, defaults, token bounds) and `config['llm']['max_tokens']`.
Prompt-template, model-name and temperature settings only flow into the
external LLM call and are absorbed into the `chat` parameter. `Option` fields
model dict keys that `.get` defaults when absent. -/
structure RouterConfig where
  collection_keywords : List (String × List String)
  collection_descriptions : List (String × String)
  default_collections : Option (List String)
  min_tokens : Option Int
  max_tokens : Option Int
  llm_max_tokens : Option Int
  deriving DecidableEq, Repr

def startsWithChars : List Char → List Char → Bool
  | [], _ => true
  | _ :: _, [] => false
  | p :: ps, h :: hs => p == h && startsWithChars ps hs

def containsChars (pat : List Char) : List Char → Bool
  | [] => startsWithChars pat []
  | h :: hs => startsWithChars pat (h :: hs) || containsChars pat hs

/-- Python substring containment `pat in hay`. -/
def strContains (hay pat : String) : Bool := containsChars pat.toList hay.toList

/-- Python `s.lower()`, character by character (structural counterpart of
`String.toLower`). -/
def pyLower (s : String) : String := String.mk (s.toList.map Char.toLower)

/-- Python `s.strip()`: drop whitespace from both ends (structural
counterpart of `String.trim`).  An empty string strips to the empty string,
so `not response or not response.strip()` is `pyStrip response = ""`. -/
def pyStrip (s : String) : String :=
  String.mk (((s.toList.dropWhile Char.isWhitespace).reverse.dropWhile Char.isWhitespace).reverse)

/-- Python `int(x)` applied to a non-negative product: truncation toward
zero. -/
def pyTrunc (q : ℚ) : Int := if q < 0 then -(Int.floor (-q)) else Int.floor q

/-- `route_simple` (`query_router.py` lines 23-52): keyword routing.  The
Python float factors `1.3` and `1.6` are modelled as the exact rationals
`13/10` and `16/10` (the claims below never depend on the rounding of the
scaled branches).  `list(set(collections))` has unspecified CPython ordering
and is modelled as a first-occurrence dedup; only membership and length are
meaningful downstream. -/
def route_simple (cfg : RouterConfig) (query : String) : RoutingDecision :=
  let query_lower := pyLower query
  let matched := (cfg.collection_keywords.filter
    (fun kv => kv.2.any (fun kw => strContains query_lower kw))).map Prod.fst
  let default_collections := cfg.default_collections.getD
    ((cfg.collection_descriptions.map Prod.fst).take 1)
  let collections := if matched.isEmpty then default_collections else matched
  let base_tokens := cfg.llm_max_tokens.getD 15000
  let token_allocation :=
    if collections.length > 2 then pyTrunc ((base_tokens : ℚ) * (13 / 10))
    else if strContains query_lower "plan" || strContains query_lower "schedule" then
      pyTrunc ((base_tokens : ℚ) * (16 / 10))
    else base_tokens
  { collections := collections.eraseDups
    token_allocation := token_allocation
    reasoning := "Keyword-based routing: " ++ String.intercalate ", " collections }

/-- Outcome of `json.loads` (standard library, external): a JSON object with
the three optional fields the router reads; `raisesLater` covers values whose
downstream use raises (non-object JSON, non-numeric `token_allocation`),
which the broad `except Exception` handler turns into defaults; `fail` is
`json.JSONDecodeError`. -/
inductive ParsedJson where
  | dict (collections : Option (List String)) (token_allocation : Option Int)
      (reasoning : Option String)
  | raisesLater
  | fail
  deriving DecidableEq, Repr

def splitWsChars : List Char → List Char → List String
  | [], acc => if acc.isEmpty then [] else [String.mk acc.reverse]
  | c :: cs, acc =>
    if c.isWhitespace then
      (if acc.isEmpty then splitWsChars cs [] else String.mk acc.reverse :: splitWsChars cs [])
    else splitWsChars cs (c :: acc)

/-- Python `response.split()` (split on whitespace runs, no empties). -/
def pySplitWs (s : String) : List String := splitWsChars s.toList []

/-- Python `' '.join(response.split())` (`query_router.py` line 150). -/
def pyCollapseWs (s : String) : String := String.intercalate " " (pySplitWs s)

/-- `router_config.get('default_collections',
list(router_config.get('collection_descriptions', {}).keys()))`
(`query_router.py` line 57). -/
def routerDefaultCollections (cfg : RouterConfig) : List String :=
  cfg.default_collections.getD (cfg.collection_descriptions.map Prod.fst)

/-- `route_with_llm_analysis` (`query_router.py` lines 54-201).  External
parts become parameters: `chat` is the router-LLM call (`Except.error` = the
call raised, caught by the broad handler), `parse` is `json.loads`, `extract`
is the `re.search` for the first brace-delimited substring.  The
`ollama_present = false` branch reproduces lines 59-64, which reference the
local `llm_config` before its assignment at line 66 and therefore raise
`UnboundLocalError`; this is the only non-`ok` outcome.  The
`Except.ok ParsedJson.fail` arm of the final match is unreachable (the
parsing stage never wraps `fail` in `ok`) and is mapped to the broad-handler
default. -/
def route_with_llm_analysis (cfg : RouterConfig) (ollama_present : Bool)
    (chat : Except String String) (parse : String → ParsedJson)
    (extract : String → Option String) : Except String RoutingDecision :=
  let default_collections := routerDefaultCollections cfg
  if !ollama_present then
    Except.error "UnboundLocalError: local variable llm_config referenced before assignment"
  else
    let llm_max := cfg.llm_max_tokens.getD 15000
    let min_tokens := cfg.min_tokens.getD 150
    let max_tokens := cfg.max_tokens.getD 1250
    match chat with
    | Except.error e =>
      Except.ok { collections := default_collections, token_allocation := llm_max,
                  reasoning := "Error: " ++ e }
    | Except.ok response =>
      if pyStrip response = "" then
        Except.ok { collections := default_collections, token_allocation := llm_max,
                    reasoning := "Empty response from router LLM" }
      else
        let cleaned_response := pyCollapseWs response
        let parsed : Except String ParsedJson :=
          match parse cleaned_response with
          | ParsedJson.fail =>
            match extract cleaned_response with
            | some m =>
              match parse m with
              | ParsedJson.fail => Except.error "Failed to parse router response"
              | p => Except.ok p
            | none => Except.error "No valid JSON found in response"
          | p => Except.ok p
        match parsed with
        | Except.error reason =>
          Except.ok { collections := default_collections, token_allocation := llm_max,
                      reasoning := reason }
        | Except.ok ParsedJson.raisesLater =>
          Except.ok { collections := default_collections, token_allocation := llm_max,
                      reasoning := "Error: TypeError" }
        | Except.ok ParsedJson.fail =>
          Except.ok { collections := default_collections, token_allocation := llm_max,
                      reasoning := "Error: unreachable" }
        | Except.ok (ParsedJson.dict cols tok reas) =>
          let collections := cols.getD default_collections
          let token_allocation := tok.getD llm_max
          let reasoning := reas.getD "LLM analysis"
          let token_allocation := max min_tokens (min token_allocation max_tokens)
          let valid_collections := collections.filter
            (fun c => (cfg.collection_descriptions.map Prod.fst).contains c)
          let valid_collections :=
            if valid_collections.isEmpty then default_collections else valid_collections
          Except.ok { collections := valid_collections, token_allocation := token_allocation,
                      reasoning := reasoning }

/-- `route_query` (`query_router.py` lines 16-21). -/
def route_query (cfg : RouterConfig) (ollama_present : Bool) (method : String) (query : String)
    (chat : Except String String) (parse : String → ParsedJson)
    (extract : String → Option String) : Except String RoutingDecision :=
  if !ollama_present || method == "simple" then Except.ok (route_simple cfg query)
  else route_with_llm_analysis cfg ollama_present chat parse extract

/-- Concrete router configuration carrying the documented defaults
(`min_tokens=150`, `max_tokens=1250`, `llm.max_tokens=15000`). -/
def cfg0 : RouterConfig :=
  { collection_keywords := [("courses", ["course", "class"])]
    collection_descriptions := [("courses", "Course information")]
    default_collections := some ["courses"]
    min_tokens := some 150
    max_tokens := some 1250
    llm_max_tokens := some 15000 }

/-- C1 counterexample: the claim that every routing path yields a token
allocation inside `[min_tokens, max_tokens]` is false.  With the documented
defaults, the keyword strategy (reached through `route_query` whenever no
LLM handle exists) allocates `llm.max_tokens = 15000`, which lies outside
`[150, 1250]`; `route_simple` never clamps. -/
theorem C1_unclamped_keyword_counterexample :
    route_query cfg0 false "llm" "hi" (Except.error "unused") (fun _ => ParsedJson.fail)
        (fun _ => none) = Except.ok (route_simple cfg0 "hi")
    ∧ (route_simple cfg0 "hi").token_allocation = 15000
    ∧ ¬ (cfg0.min_tokens.getD 150 ≤ (route_simple cfg0 "hi").token_allocation
        ∧ (route_simple cfg0 "hi").token_allocation ≤ cfg0.max_tokens.getD 1250) := by
  refine ⟨rfl, by decide, by decide⟩

/-- C1 (amended): only on the model-assisted success path is the token
allocation clamped into `[min_tokens, max_tokens]` (and it always lands in
that interval when `min_tokens ≤ max_tokens`); the keyword strategy and
every model-assisted failure fallback use the LLM config `max_tokens`
unclamped. -/
theorem C1_token_clamped_on_llm_success (cfg : RouterConfig) (response : String)
    (parse : String → ParsedJson) (extract : String → Option String)
    (cols : Option (List String)) (tok : Option Int) (reas : Option String)
    (hmin : cfg.min_tokens.getD 150 ≤ cfg.max_tokens.getD 1250)
    (hne : ¬ pyStrip response = "")
    (hparse : parse (pyCollapseWs response) = ParsedJson.dict cols tok reas) :
    ∃ d, route_with_llm_analysis cfg true (Except.ok response) parse extract = Except.ok d
      ∧ cfg.min_tokens.getD 150 ≤ d.token_allocation
      ∧ d.token_allocation ≤ cfg.max_tokens.getD 1250 := by
  have h : ∃ d, route_with_llm_analysis cfg true (Except.ok response) parse extract = Except.ok d
      ∧ d.token_allocation = max (cfg.min_tokens.getD 150)
        (min (tok.getD (cfg.llm_max_tokens.getD 15000)) (cfg.max_tokens.getD 1250)) := by
    simp only [route_with_llm_analysis, Bool.not_true, Bool.false_eq_true, if_false,
      if_neg hne, hparse]
    exact ⟨_, rfl, rfl⟩
  obtain ⟨d, hd, hdt⟩ := h
  refine ⟨d, hd, ?_, ?_⟩
  · rw [hdt]; exact le_max_left _ _
  · rw [hdt]; exact max_le hmin (min_le_right _ _)

theorem C1_token_clamped_witness :
    ∃ d, route_with_llm_analysis cfg0 true (Except.ok "x")
        (fun _ => ParsedJson.dict (some ["courses"]) (some 5000) none) (fun _ => none)
        = Except.ok d
      ∧ cfg0.min_tokens.getD 150 ≤ d.token_allocation
      ∧ d.token_allocation ≤ cfg0.max_tokens.getD 1250 :=
  C1_token_clamped_on_llm_success cfg0 "x" (fun _ => ParsedJson.dict (some ["courses"]) (some 5000) none)
    (fun _ => none) (some ["courses"]) (some 5000) none (by decide) (by decide) rfl

/-- C3: evaluation of `route_with_llm_analysis` at the failing input and at
the response-failure fallbacks.  With no LLM handle the function raises
`UnboundLocalError` (lines 59-64 reference `llm_config` before its
assignment at line 66) instead of returning the intended default decision;
with a handle present, a non-JSON response and a whitespace-only response
both return the configured default collections and the default token
allocation, as the claim states. -/
theorem C3_no_llm_branch_raises :
    route_with_llm_analysis cfg0 false (Except.error "unused") (fun _ => ParsedJson.fail)
        (fun _ => none)
      = Except.error "UnboundLocalError: local variable llm_config referenced before assignment"
    ∧ route_with_llm_analysis cfg0 true (Except.ok "the model refused to answer")
        (fun _ => ParsedJson.fail) (fun _ => none)
      = Except.ok { collections := ["courses"], token_allocation := 15000,
                    reasoning := "No valid JSON found in response" }
    ∧ route_with_llm_analysis cfg0 true (Except.ok "   ")
        (fun _ => ParsedJson.fail) (fun _ => none)
      = Except.ok { collections := ["courses"], token_allocation := 15000,
                    reasoning := "Empty response from router LLM" }
    ∧ (∀ e, route_with_llm_analysis cfg0 true (Except.error e) (fun _ => ParsedJson.fail)
        (fun _ => none)
      = Except.ok { collections := ["courses"], token_allocation := 15000,
                    reasoning := "Error: " ++ e }) := by
  refine ⟨rfl, ?_, ?_, fun e => rfl⟩
  · rfl
  · rfl

/-- Python truthiness of an optional string (`None` and `''` are falsy). -/
def truthyStr : Option String → Bool
  | none => false
  | some s => !s.isEmpty

/-- Python `a or b` on optional strings. -/
def pyOrStr (a b : Option String) : Option String := if truthyStr a then a else b

def pyTitleChars : List Char → Bool → List Char
  | [], _ => []
  | c :: cs, newWord =>
    if c.isAlpha then (if newWord then c.toUpper else c.toLower) :: pyTitleChars cs false
    else c :: pyTitleChars cs true

/-- Python `s.title()`: first letter of every alphabetic run uppercased, the
rest lowercased. -/
def pyTitle (s : String) : String := String.mk (pyTitleChars s.toList true)

/-- Python `s.replace('_', ' ')`. -/
def underscoresToSpaces (s : String) : String :=
  String.mk (s.toList.map (fun c => if c = '_' then ' ' else c))

/-- The configuration slices read by `AnswerGenerator` (`answer.py`):
`rag.top_k`, `rag.base_chunks_per_collection`, `rag.priority_boost`,
`rag.collection_priority`, `rag.metadata_display_keys`, `llm.max_tokens`. -/
structure GenConfig where
  rag_top_k : Option ℕ
  base_chunks_per_collection : Option ℕ
  priority_boost : Option ℕ
  collection_priority : Option (List String)
  metadata_display_keys : Option (List String)
  llm_max_tokens : Option Int
  deriving DecidableEq, Repr

/-- `format_context` (`context_formatter.py` lines 5-23): each fragment is
prefixed with a bracketed provenance label built from its collection, a
source key, and the configured metadata display keys. -/
def format_context (cfg : GenConfig) (chunks : List Frag) : String :=
  let display_keys := cfg.metadata_display_keys.getD []
  String.intercalate "\n\n" (chunks.map (fun chunk =>
    let source := pyOrStr (pyOrStr (chunk.meta.lookup "file_name")
      (chunk.meta.lookup "resourceName")) (chunk.meta.lookup "source")
    let meta_parts :=
      (if chunk.collection.isEmpty then [] else ["Collection: " ++ chunk.collection])
      ++ (if truthyStr source then ["Source: " ++ source.getD ""] else [])
      ++ display_keys.filterMap (fun k =>
          if truthyStr (chunk.meta.lookup k) then
            some (pyTitle (underscoresToSpaces k) ++ ": " ++ (chunk.meta.lookup k).getD "")
          else none)
    let pre := if meta_parts.isEmpty then ""
      else "[" ++ String.intercalate ", " meta_parts ++ "] "
    pre ++ chunk.text))

/-- `build_prompt` (`context_formatter.py` lines 26-57): one of three fixed
templates selected by the two thinking flags.  The text is given in its
intended dedented form; in the source the interpolated context defeats
`textwrap.dedent` so the literal indentation survives, a detail no claim
depends on (only the prompt's presence and length are traced). -/
def build_prompt (context query : String) (thinking show_thinking : Bool) : String :=
  if thinking && show_thinking then
    "Context:\n" ++ context ++ "\n\nQuestion: " ++ query ++
      "\n\nPlease think through your answer step by step, then provide your final response." ++
      "\n\nThinking: [Show your reasoning process here]" ++
      "\n\nAnswer: [Provide your final answer here]"
  else if thinking then
    "Context:\n" ++ context ++ "\n\nQuestion: " ++ query ++
      "\n\nThink through your answer carefully using the provided context, then provide a clear and concise response." ++
      "\n\nAnswer:"
  else
    "Context:\n" ++ context ++ "\n\nQuestion: " ++ query ++ "\n\nAnswer:"

/-- A document dict returned by `summary_retriever.get_documents_by_summaries`
(`summary_retriever.py`), as consumed by `chunks_to_context_docs`; `Option`
fields model possibly-absent dict keys. -/
structure SummaryDoc where
  text : Option String
  score : Option ℚ
  doc_id : Option String
  source_path : Option String
  title : Option String
  collection_name : Option String
  collection : Option String
  meta : List (String × String)
  deriving DecidableEq, Repr

/-- `chunks_to_context_docs` (`context_formatter.py` lines 60-67). -/
def chunks_to_context_docs (cs : List SummaryDoc) : List Frag :=
  cs.map (fun c =>
    { text := c.text.getD ""
      score := c.score.getD 0
      meta := [("doc_id", c.doc_id.getD ((c.meta.lookup "doc_id").getD ""))
             , ("source_path", c.source_path.getD ((c.meta.lookup "source_path").getD ""))
             , ("title", c.title.getD ((c.meta.lookup "title").getD ""))]
      doc_id := none
      collection := c.collection_name.getD (c.collection.getD "") })

/-- A document record held by the docstore (`utils/docstore.py`), as read by
`parent_docs_to_context`. -/
structure ParentDoc where
  text : Option String
  source_path : Option String
  title : Option String
  collection_name : Option String
  deriving DecidableEq, Repr

/-- `parent_docs_to_context` (`context_formatter.py` lines 70-76): resolve
`doc_ids` in first-seen order against the batch-get result, skipping misses;
every parent document context entry carries score 1.0. -/
def parent_docs_to_context (documents : List (String × ParentDoc)) (doc_ids : List String) :
    List Frag :=
  doc_ids.filterMap (fun d =>
    (documents.lookup d).map (fun doc =>
      { text := doc.text.getD ""
        score := 1
        meta := [("doc_id", d), ("source_path", doc.source_path.getD "")
               , ("title", doc.title.getD "")]
        doc_id := none
        collection := doc.collection_name.getD "" }))

/-- `_chunk_allocation` (`answer.py` lines 89-93): per-collection budget is
`base + boost` for collections in the configured priority list (intersected
with the searched collections), `base` otherwise.
`_calculate_chunk_allocation` in `unified_rag.py` lines 191-203 computes the
same map through `_get_priority_collections`. -/
def chunk_allocation (cfg : GenConfig) (collections : List String) : List (String × ℕ) :=
  let base := cfg.base_chunks_per_collection.getD 8
  let boost := cfg.priority_boost.getD 4
  let priority := (cfg.collection_priority.getD collections).filter
    (fun n => collections.contains n)
  collections.map (fun n => (n, if priority.contains n then base + boost else base))

theorem lookup_map_pair {f : String → ℕ} {l : List String} {n : String} (hn : n ∈ l) :
    (l.map (fun x => (x, f x))).lookup n = some (f n) := by
  induction l with
  | nil => cases hn
  | cons a t ih =>
    by_cases h : a = n
    · subst h
      simp [List.lookup]
    · have hnt : n ∈ t := by
        rcases List.mem_cons.mp hn with h' | h'
        · exact absurd h'.symm h
        · exact h'
      have hbeq : (n == a) = false := beq_eq_false_iff_ne.mpr (fun hh => h hh.symm)
      simp only [List.map_cons, List.lookup, hbeq]
      exact ih hnt

/-- C8: with a configured priority list, the per-collection chunk budget is
`base + boost` exactly for the searched collections lying in that list and
`base` for the others. -/
theorem C8_chunk_allocation_budget (cfg : GenConfig) (collections plist : List String)
    (n : String) (hp : cfg.collection_priority = some plist) (hn : n ∈ collections) :
    (chunk_allocation cfg collections).lookup n =
      some (if n ∈ plist then
        cfg.base_chunks_per_collection.getD 8 + cfg.priority_boost.getD 4
      else cfg.base_chunks_per_collection.getD 8) := by
  unfold chunk_allocation
  rw [hp, lookup_map_pair hn]
  simp only [Option.getD_some]
  have hcont : (plist.filter (fun x => collections.contains x)).contains n = decide (n ∈ plist) := by
    by_cases hmem : n ∈ plist
    · simp [List.mem_filter, hmem, hn]
    · simp [List.mem_filter, hmem]
  simp only [hcont]
  by_cases hmem : n ∈ plist <;> simp [hmem]

/-- A reranker as used by `_apply_reranking`: `rerank(query, candidates,
top_k)`. -/
abbrev RerankFn : Type := String → List Frag → ℕ → List Frag

/-- `_get_reranker` (`unified_rag.py` lines 80-88): lazily constructed,
cached reranker.  The cache state is `none` while `self.reranker is None`,
`some none` once a failed construction cached `False`, and `some (some rr)`
once construction succeeded; `initBGE` is the external `BGEReranker()`
constructor outcome.  Returns the reranker handed to callers together with
the new cache state. -/
def get_reranker (rerank_disabled : Bool) (initBGE : Except String RerankFn) :
    Option (Option RerankFn) → Option RerankFn × Option (Option RerankFn)
  | none =>
    if rerank_disabled then (none, none)
    else
      match initBGE with
      | Except.ok rr => (some rr, some (some rr))
      | Except.error _ => (none, some none)
  | some c => (c, some c)

/-- AnswerTrace: the `debug` dict of `answer_question` (`answer.py` lines
29-30).  Keys assigned at creation are plain fields; keys only assigned on
some paths are `Option`, with `none` meaning the key is absent from the
dict. -/
structure Debug where
  query : String
  collections_searched : List String
  total_results : ℕ
  reranking_enabled : Bool
  thinking_enabled : Bool
  top_k_used : Option ℕ
  summary_gating_used : Bool
  parent_docs_used : Bool
  routing_used : Option Bool
  token_allocation : Option Int
  chunks_used : Option ℕ
  prompt_length : Option ℕ
  answer_length : Option ℕ
  error : Option String
  deriving DecidableEq, Repr

/-- The dict literal at `answer.py` lines 29-30. -/
def initDebug (query : String) (enable_thinking : Bool) (top_k : Option ℕ) : Debug :=
  { query := query, collections_searched := [], total_results := 0, reranking_enabled := false,
    thinking_enabled := enable_thinking, top_k_used := top_k, summary_gating_used := false,
    parent_docs_used := false, routing_used := none, token_allocation := none,
    chunks_used := none, prompt_length := none, answer_length := none, error := none }

/-- What `answer_question` hands back: a buffered answer string or the
streamed chunk sequence. -/
inductive Payload where
  | buffered (answer : String)
  | streamed (chunks : List String)
  deriving DecidableEq, Repr

/-- The full outcome of one `answer_question` call: the payload, the context
chunks, the trace, and how many language-model invocations the call made
(`return_debug_info` in the source merely selects how much of this is
returned). -/
structure AnswerResult where
  payload : Payload
  chunks : List Frag
  debug : Debug
  llmCalls : ℕ

/-- `AnswerGenerator` (`answer.py` lines 5-21) with its injected
collaborators as functions: `router` is `query_router.route_query(query,
history, user_context)` with history and user context absorbed;
`searchMulti` is `search_engine.search_multiple_collections(query,
collections, user_ctx, chunk_allocation)`; `summaryRetriever` is
`get_documents_by_summaries`; `docstore` is `batch_get`; `reranker` is the
value `self.get_reranker()` yields (`none` when disabled or when
initialization failed); `llmRespond` / `llmStream` are
`llm_handler.get_response` / `get_response_stream` with history absorbed. -/
structure AnswerGen where
  config : GenConfig
  router : Option (String → RoutingDecision)
  searchMulti : String → List String → List (String × ℕ) → List Frag
  summaryRetriever : Option (String → List String → ℕ → List SummaryDoc)
  docstore : Option (List String → List (String × ParentDoc))
  reranker : Option RerankFn
  llmRespond : String → Int → String
  llmStream : String → Int → List String
  collectionKeys : List String
  enable_summary_gating : Bool
  summary_top_n : ℕ
  return_parent_docs : Bool
  rerank_disabled : Bool

/-- Python truthiness of the optional `selected_collections` list (`None`
and `[]` are falsy). -/
def truthyList : Option (List String) → Bool
  | some (_ :: _) => true
  | _ => false

/-- The explicit-selection / no-router arm of `_route_query` (`answer.py`
lines 57-60): `selected or list(self.collections.keys())` and the LLM config
`max_tokens` default. -/
def route_fallback (gen : AnswerGen) (selected : Option (List String)) (debug : Debug) :
    List String × Int × Debug :=
  let cols := match selected with
    | some (c :: cs) => c :: cs
    | _ => gen.collectionKeys
  let tokens := gen.config.llm_max_tokens.getD 15000
  (cols, tokens,
    { debug with routing_used := some false, token_allocation := some tokens,
                 collections_searched := cols })

/-- `_route_query` (`answer.py` lines 51-60): routing runs only when a
router exists and no collections were explicitly selected. -/
def route_query_step (gen : AnswerGen) (query : String) (selected : Option (List String))
    (debug : Debug) : List String × Int × Debug :=
  match gen.router with
  | some route =>
    if truthyList selected then route_fallback gen selected debug
    else
      let r := route query
      (r.collections, r.token_allocation,
        { debug with routing_used := some true, token_allocation := some r.token_allocation,
                     collections_searched := r.collections })
  | none => route_fallback gen selected debug

/-- `_generate` (`answer.py` lines 124-130); producing either delivery form
counts as one language-model invocation, and only the buffered form records
`answer_length`. -/
def generate (gen : AnswerGen) (prompt : String) (tokens : Int) (stream : Bool)
    (chunks : List Frag) (debug : Debug) : AnswerResult :=
  if stream then
    { payload := Payload.streamed (gen.llmStream prompt tokens), chunks := chunks,
      debug := debug, llmCalls := 1 }
  else
    let ans := gen.llmRespond prompt tokens
    { payload := Payload.buffered ans, chunks := chunks,
      debug := { debug with answer_length := some ans.length }, llmCalls := 1 }

/-- The fixed fallback string of `_no_results` (`answer.py` line 133). -/
def no_results_message : String :=
  "I couldn't find relevant information to answer your question."

/-- `_no_results` (`answer.py` lines 132-139): fixed message (the sole chunk
of the error stream in streaming mode), `error = no_results` in the trace,
no model call. -/
def no_results (stream : Bool) (debug : Debug) : AnswerResult :=
  let debug := { debug with error := some "no_results" }
  if stream then
    { payload := Payload.streamed [no_results_message], chunks := [], debug := debug,
      llmCalls := 0 }
  else
    { payload := Payload.buffered no_results_message, chunks := [], debug := debug,
      llmCalls := 0 }

/-- The doc-id collection loop of `_get_context` (`answer.py` lines
110-116): first-seen distinct truthy ids from `metadata.doc_id or doc_id`,
stopping once `summary_top_n` ids are collected. -/
def collectDocIds (cap : ℕ) : List Frag → List String → List String
  | [], acc => acc
  | c :: rest, acc =>
    match pyOrStr (c.meta.lookup "doc_id") c.doc_id with
    | some d =>
      if d.isEmpty then collectDocIds cap rest acc
      else if acc.contains d then collectDocIds cap rest acc
      else
        let acc2 := acc ++ [d]
        if cap ≤ acc2.length then acc2 else collectDocIds cap rest acc2
    | none => collectDocIds cap rest acc

/-- `_get_context` (`answer.py` lines 106-122): chunk context unless parent
documents are requested, a docstore exists, ids were found, and the batch
get resolved something. -/
def get_context (gen : AnswerGen) (chunks : List Frag) (use_parent : Bool) (debug : Debug) :
    String × Debug :=
  match gen.docstore with
  | none => (format_context gen.config chunks, debug)
  | some batch_get =>
    if !use_parent then (format_context gen.config chunks, debug)
    else
      let debug := { debug with parent_docs_used := true }
      let doc_ids := collectDocIds gen.summary_top_n chunks []
      if doc_ids.isEmpty then (format_context gen.config chunks, debug)
      else
        let docs := batch_get doc_ids
        if docs.isEmpty then (format_context gen.config chunks, debug)
        else (format_context gen.config (parent_docs_to_context docs doc_ids), debug)

/-- `_apply_reranking` (`answer.py` lines 95-104). -/
def apply_reranking (gen : AnswerGen) (results : List Frag) (query : String) (top_k : ℕ)
    (enable : Option Bool) (debug : Debug) : List Frag × Debug :=
  let en := enable.getD (!gen.rerank_disabled)
  if en then
    match gen.reranker with
    | some rr => (rr query results top_k, { debug with reranking_enabled := true })
    | none => (results.take top_k, { debug with reranking_enabled := false })
  else (results.take top_k, { debug with reranking_enabled := false })

/-- `_standard_answer` (`answer.py` lines 74-87). -/
def standard_answer (gen : AnswerGen) (query : String) (collections : List String)
    (top_k : ℕ) (tokens : Int) (thinking show_thinking stream : Bool)
    (reranking : Option Bool) (parent_docs : Bool) (debug : Debug) : AnswerResult :=
  let alloc := chunk_allocation gen.config collections
  let results := gen.searchMulti query collections alloc
  let debug := { debug with total_results := results.length }
  if results.isEmpty then no_results stream debug
  else
    let rd := apply_reranking gen results query top_k reranking debug
    let reranked := rd.1
    let debug := { rd.2 with chunks_used := some reranked.length }
    let cd := get_context gen reranked parent_docs debug
    let prompt := build_prompt cd.1 query thinking show_thinking
    let debug := { cd.2 with prompt_length := some prompt.length }
    generate gen prompt tokens stream reranked debug

/-- `_summary_gated_answer` (`answer.py` lines 62-72): marks
`summary_gating_used` before probing; returns `none` together with the
updated trace on a miss (the Python code mutates the shared dict and
returns `None`). -/
def summary_gated_answer (gen : AnswerGen) (sr : String → List String → ℕ → List SummaryDoc)
    (query : String) (collections : List String) (tokens : Int)
    (thinking show_thinking stream : Bool) (debug : Debug) :
    Option AnswerResult × Debug :=
  let debug := { debug with summary_gating_used := true }
  let docs := sr query collections gen.summary_top_n
  if docs.isEmpty then (none, debug)
  else
    let ctx_docs := chunks_to_context_docs docs
    let debug := { debug with total_results := ctx_docs.length, parent_docs_used := true }
    let ctx := format_context gen.config ctx_docs
    let prompt := build_prompt ctx query thinking show_thinking
    let debug := { debug with prompt_length := some prompt.length }
    (some (generate gen prompt tokens stream ctx_docs debug), debug)

/-- `answer_question` (`answer.py` lines 23-49). -/
def answer_question (gen : AnswerGen) (query : String) (stream : Bool)
    (selected_collections : Option (List String)) (top_k : Option ℕ)
    (enable_thinking show_thinking : Bool) (enable_reranking : Option Bool)
    (use_summary_gating use_parent_docs : Option Bool) : AnswerResult :=
  let debug0 := initDebug query enable_thinking top_k
  let rstep := route_query_step gen query selected_collections debug0
  let collections := rstep.1
  let tokens := rstep.2.1
  let top_k2 := top_k.getD (gen.config.rag_top_k.getD 20)
  let debug2 := { rstep.2.2 with top_k_used := some top_k2 }
  let usg := use_summary_gating.getD gen.enable_summary_gating
  let upd := use_parent_docs.getD gen.return_parent_docs
  let gate : Option AnswerResult × Debug :=
    match gen.summaryRetriever with
    | some sr =>
      if usg then
        summary_gated_answer gen sr query collections tokens enable_thinking show_thinking
          stream debug2
      else (none, debug2)
    | none => (none, debug2)
  match gate.1 with
  | some result => result
  | none =>
    standard_answer gen query collections top_k2 tokens enable_thinking show_thinking stream
      enable_reranking upd gate.2

theorem no_results_eq (stream : Bool) (debug : Debug) :
    no_results stream debug =
      { payload := if stream then Payload.streamed [no_results_message]
                   else Payload.buffered no_results_message
        chunks := []
        debug := { debug with error := some "no_results" }
        llmCalls := 0 } := by
  cases stream <;> rfl

theorem generate_eq (gen : AnswerGen) (prompt : String) (tokens : Int) (stream : Bool)
    (chunks : List Frag) (debug : Debug) :
    (stream = true ∧ generate gen prompt tokens stream chunks debug =
      { payload := Payload.streamed (gen.llmStream prompt tokens), chunks := chunks,
        debug := debug, llmCalls := 1 })
    ∨ (stream = false ∧ generate gen prompt tokens stream chunks debug =
      { payload := Payload.buffered (gen.llmRespond prompt tokens), chunks := chunks,
        debug := { debug with
          answer_length := some (gen.llmRespond prompt tokens).length }, llmCalls := 1 }) := by
  cases stream
  · exact Or.inr ⟨rfl, rfl⟩
  · exact Or.inl ⟨rfl, rfl⟩

theorem apply_reranking_snd (gen : AnswerGen) (results : List Frag) (query : String)
    (top_k : ℕ) (enable : Option Bool) (debug : Debug) :
    ∃ b, (apply_reranking gen results query top_k enable debug).2 =
      { debug with reranking_enabled := b } := by
  unfold apply_reranking
  cases h : enable.getD (!gen.rerank_disabled)
  · exact ⟨false, by simp [h]⟩
  · cases hr : gen.reranker
    · exact ⟨false, by simp [h, hr]⟩
    · exact ⟨true, by simp [h, hr]⟩

theorem apply_reranking_off (gen : AnswerGen) (results : List Frag) (query : String)
    (top_k : ℕ) (enable : Option Bool) (debug : Debug)
    (hoff : enable = some false ∨ (enable = none ∧ gen.rerank_disabled = true)
      ∨ gen.reranker = none) :
    apply_reranking gen results query top_k enable debug =
      (results.take top_k, { debug with reranking_enabled := false }) := by
  unfold apply_reranking
  rcases hoff with h | ⟨h1, h2⟩ | h
  · rw [h]; rfl
  · rw [h1, h2]; rfl
  · cases he : enable.getD (!gen.rerank_disabled)
    · simp [he]
    · simp [he, h]

theorem get_context_snd (gen : AnswerGen) (chunks : List Frag) (use_parent : Bool)
    (debug : Debug) :
    ∃ pd, (get_context gen chunks use_parent debug).2 =
      { debug with parent_docs_used := pd } := by
  unfold get_context
  cases gen.docstore with
  | none => exact ⟨debug.parent_docs_used, rfl⟩
  | some bg =>
    cases use_parent with
    | false => exact ⟨debug.parent_docs_used, rfl⟩
    | true =>
      refine ⟨true, ?_⟩
      simp only [Bool.not_true, Bool.false_eq_true, if_false]
      cases h1 : (collectDocIds gen.summary_top_n chunks []).isEmpty <;>
        cases h2 : (bg (collectDocIds gen.summary_top_n chunks [])).isEmpty <;>
          simp [h1, h2]

theorem route_step_debug (gen : AnswerGen) (query : String) (selected : Option (List String))
    (debug : Debug) :
    ∃ ru ta cols, (route_query_step gen query selected debug).2.2 =
      { debug with routing_used := some ru, token_allocation := some ta,
                   collections_searched := cols } := by
  unfold route_query_step route_fallback
  cases gen.router
  · exact ⟨false, _, _, rfl⟩
  · cases h : truthyList selected
    · simp only [h, Bool.false_eq_true, if_false]
      exact ⟨true, _, _, rfl⟩
    · simp only [h, if_true]
      exact ⟨false, _, _, rfl⟩

theorem standard_answer_of_empty (gen : AnswerGen) (query : String) (collections : List String)
    (top_k : ℕ) (tokens : Int) (thinking show_thinking stream : Bool)
    (reranking : Option Bool) (parent_docs : Bool) (debug : Debug)
    (h : gen.searchMulti query collections (chunk_allocation gen.config collections) = []) :
    standard_answer gen query collections top_k tokens thinking show_thinking stream reranking
      parent_docs debug = no_results stream { debug with total_results := 0 } := by
  simp only [standard_answer, h, List.isEmpty_nil, if_true, List.length_nil]

theorem summary_gate_miss (gen : AnswerGen) (sr : String → List String → ℕ → List SummaryDoc)
    (query : String) (collections : List String) (tokens : Int)
    (thinking show_thinking stream : Bool) (debug : Debug)
    (h : sr query collections gen.summary_top_n = []) :
    summary_gated_answer gen sr query collections tokens thinking show_thinking stream debug =
      (none, { debug with summary_gating_used := true }) := by
  simp only [summary_gated_answer, h, List.isEmpty_nil, if_true]

theorem standard_answer_props (gen : AnswerGen) (query : String) (cols : List String)
    (tk : ℕ) (tokens : Int) (thinking shw stream : Bool) (rer : Option Bool) (pd : Bool)
    (debug : Debug) :
    (standard_answer gen query cols tk tokens thinking shw stream rer pd debug).debug.query
        = debug.query
    ∧ (standard_answer gen query cols tk tokens thinking shw stream rer pd
        debug).debug.routing_used = debug.routing_used
    ∧ (standard_answer gen query cols tk tokens thinking shw stream rer pd
        debug).debug.token_allocation = debug.token_allocation
    ∧ (standard_answer gen query cols tk tokens thinking shw stream rer pd
        debug).debug.top_k_used = debug.top_k_used
    ∧ (((standard_answer gen query cols tk tokens thinking shw stream rer pd
          debug).debug.error = debug.error
        ∧ (standard_answer gen query cols tk tokens thinking shw stream rer pd
            debug).debug.prompt_length.isSome = true
        ∧ (stream = false →
            (standard_answer gen query cols tk tokens thinking shw stream rer pd
              debug).debug.answer_length.isSome = true))
      ∨ ((standard_answer gen query cols tk tokens thinking shw stream rer pd
            debug).debug.error = some "no_results"
        ∧ (standard_answer gen query cols tk tokens thinking shw stream rer pd
            debug).debug.prompt_length = debug.prompt_length
        ∧ (standard_answer gen query cols tk tokens thinking shw stream rer pd
            debug).debug.answer_length = debug.answer_length)) := by
  cases hres : gen.searchMulti query cols (chunk_allocation gen.config cols) with
  | nil =>
    rw [standard_answer_of_empty gen query cols tk tokens thinking shw stream rer pd debug hres,
      no_results_eq]
    exact ⟨rfl, rfl, rfl, rfl, Or.inr ⟨rfl, rfl, rfl⟩⟩
  | cons r t =>
    simp only [standard_answer, hres, List.isEmpty_cons, Bool.false_eq_true, if_false]
    obtain ⟨b, hb⟩ := apply_reranking_snd gen (r :: t) query tk rer
      { debug with total_results := (r :: t).length }
    rw [hb]
    generalize (apply_reranking gen (r :: t) query tk rer
      { debug with total_results := (r :: t).length }).1 = rk
    obtain ⟨pdu, hpd⟩ := get_context_snd gen rk pd
      { { { debug with total_results := (r :: t).length } with reranking_enabled := b } with
          chunks_used := some rk.length }
    rw [hpd]
    cases stream <;> simp [generate]

theorem summary_gated_some_props (gen : AnswerGen)
    (sr : String → List String → ℕ → List SummaryDoc) (query : String) (cols : List String)
    (tokens : Int) (thinking shw stream : Bool) (debug : Debug) (res : AnswerResult)
    (h : (summary_gated_answer gen sr query cols tokens thinking shw stream debug).1
      = some res) :
    res.debug.query = debug.query
    ∧ res.debug.routing_used = debug.routing_used
    ∧ res.debug.token_allocation = debug.token_allocation
    ∧ res.debug.top_k_used = debug.top_k_used
    ∧ res.debug.error = debug.error
    ∧ res.debug.prompt_length.isSome = true
    ∧ (stream = false → res.debug.answer_length.isSome = true) := by
  cases hdocs : sr query cols gen.summary_top_n with
  | nil =>
    rw [summary_gate_miss gen sr query cols tokens thinking shw stream debug hdocs] at h
    cases h
  | cons d ds =>
    simp only [summary_gated_answer, hdocs, List.isEmpty_cons, Bool.false_eq_true,
      if_false] at h
    cases stream <;>
      simp only [generate] at h <;>
        rw [← Option.some.inj h] <;> simp

theorem summary_gate_none_snd (gen : AnswerGen)
    (sr : String → List String → ℕ → List SummaryDoc) (query : String) (cols : List String)
    (tokens : Int) (thinking shw stream : Bool) (debug : Debug)
    (h : (summary_gated_answer gen sr query cols tokens thinking shw stream debug).1 = none) :
    (summary_gated_answer gen sr query cols tokens thinking shw stream debug).2
      = { debug with summary_gating_used := true } := by
  cases hdocs : sr query cols gen.summary_top_n with
  | nil => rw [summary_gate_miss gen sr query cols tokens thinking shw stream debug hdocs]
  | cons d ds =>
    simp only [summary_gated_answer, hdocs, List.isEmpty_cons, Bool.false_eq_true,
      if_false] at h
    cases h

/-- C2: whenever the search collaborator returns an empty list (and the
summary gate, if present and enabled, does not short-circuit — it yields no
documents), `answer_question` returns the fixed fallback message (sole chunk
of the error stream in streaming mode), the trace records
`error = no_results`, no model call is made, and no chunks are returned. -/
theorem C2_no_results_short_circuit (gen : AnswerGen) (query : String) (stream : Bool)
    (selected : Option (List String)) (top_k : Option ℕ)
    (enable_thinking show_thinking : Bool) (enable_reranking : Option Bool)
    (use_summary_gating use_parent_docs : Option Bool)
    (hsearch : ∀ q cols alloc, gen.searchMulti q cols alloc = [])
    (hgate : ∀ sr, gen.summaryRetriever = some sr → ∀ q cols n, sr q cols n = []) :
    (answer_question gen query stream selected top_k enable_thinking show_thinking
        enable_reranking use_summary_gating use_parent_docs).payload
      = (if stream then Payload.streamed [no_results_message]
         else Payload.buffered no_results_message)
    ∧ (answer_question gen query stream selected top_k enable_thinking show_thinking
        enable_reranking use_summary_gating use_parent_docs).debug.error = some "no_results"
    ∧ (answer_question gen query stream selected top_k enable_thinking show_thinking
        enable_reranking use_summary_gating use_parent_docs).llmCalls = 0
    ∧ (answer_question gen query stream selected top_k enable_thinking show_thinking
        enable_reranking use_summary_gating use_parent_docs).chunks = [] := by
  have hfin : ∀ cols tk tokens upd2 debug3,
      standard_answer gen query cols tk tokens enable_thinking show_thinking stream
        enable_reranking upd2 debug3 =
        { payload := if stream then Payload.streamed [no_results_message]
                     else Payload.buffered no_results_message
          chunks := []
          debug := { { debug3 with total_results := 0 } with error := some "no_results" }
          llmCalls := 0 } := by
    intro cols tk tokens upd2 debug3
    rw [standard_answer_of_empty gen query cols tk tokens enable_thinking show_thinking stream
      enable_reranking upd2 debug3 (hsearch query cols _), no_results_eq]
  unfold answer_question
  cases hsr : gen.summaryRetriever with
  | none =>
    simp [hfin]
  | some sr =>
    cases husg : (use_summary_gating.getD gen.enable_summary_gating) with
    | false =>
      simp [husg, hfin]
    | true =>
      simp only [husg, if_true]
      rw [summary_gate_miss gen sr query _ _ enable_thinking show_thinking stream _
        (hgate sr hsr query _ gen.summary_top_n)]
      simp [hfin]

/-- The trace as it stands right after routing and the top-k default, used
to state the decomposition of `answer_question`. -/
def debugAfterRoute (query : String) (thinking : Bool) (top_k : Option ℕ)
    (ru : Bool) (ta : Int) (colsr : List String) (tk2 : ℕ) : Debug :=
  { initDebug query thinking top_k with
    routing_used := some ru, token_allocation := some ta, collections_searched := colsr,
    top_k_used := some tk2 }

theorem answer_question_split (gen : AnswerGen) (query : String) (stream : Bool)
    (selected : Option (List String)) (top_k : Option ℕ)
    (thinking shw : Bool) (er : Option Bool) (usg upd' : Option Bool) :
    ∃ ru ta colsr,
      answer_question gen query stream selected top_k thinking shw er usg upd'
        = standard_answer gen query
            (route_query_step gen query selected (initDebug query thinking top_k)).1
            (top_k.getD (gen.config.rag_top_k.getD 20))
            (route_query_step gen query selected (initDebug query thinking top_k)).2.1
            thinking shw stream er (upd'.getD gen.return_parent_docs)
            (debugAfterRoute query thinking top_k ru ta colsr
              (top_k.getD (gen.config.rag_top_k.getD 20)))
      ∨ answer_question gen query stream selected top_k thinking shw er usg upd'
        = standard_answer gen query
            (route_query_step gen query selected (initDebug query thinking top_k)).1
            (top_k.getD (gen.config.rag_top_k.getD 20))
            (route_query_step gen query selected (initDebug query thinking top_k)).2.1
            thinking shw stream er (upd'.getD gen.return_parent_docs)
            { debugAfterRoute query thinking top_k ru ta colsr
                (top_k.getD (gen.config.rag_top_k.getD 20)) with
              summary_gating_used := true }
      ∨ ∃ sr res, gen.summaryRetriever = some sr
          ∧ (summary_gated_answer gen sr query
              (route_query_step gen query selected (initDebug query thinking top_k)).1
              (route_query_step gen query selected (initDebug query thinking top_k)).2.1
              thinking shw stream
              (debugAfterRoute query thinking top_k ru ta colsr
                (top_k.getD (gen.config.rag_top_k.getD 20)))).1 = some res
          ∧ answer_question gen query stream selected top_k thinking shw er usg upd' = res := by
  obtain ⟨ru, ta, colsr, hd1⟩ := route_step_debug gen query selected (initDebug query thinking top_k)
  refine ⟨ru, ta, colsr, ?_⟩
  simp only [answer_question, hd1]
  cases hsr : gen.summaryRetriever with
  | none => exact Or.inl rfl
  | some sr =>
    cases husg : usg.getD gen.enable_summary_gating with
    | false =>
      simp only [husg, Bool.false_eq_true, if_false]
      exact Or.inl rfl
    | true =>
      simp only [husg, if_true]
      cases hg1 : (summary_gated_answer gen sr query
          (route_query_step gen query selected (initDebug query thinking top_k)).1
          (route_query_step gen query selected (initDebug query thinking top_k)).2.1
          thinking shw stream
          { { initDebug query thinking top_k with
              routing_used := some ru, token_allocation := some ta,
              collections_searched := colsr } with
            top_k_used := some (top_k.getD (gen.config.rag_top_k.getD 20)) }).1 with
      | none =>
        rw [summary_gate_none_snd gen sr query _ _ thinking shw stream _ hg1]
        exact Or.inr (Or.inl rfl)
      | some res =>
        exact Or.inr (Or.inr ⟨sr, res, rfl, hg1, rfl⟩)

theorem standard_answer_off (gen : AnswerGen) (query : String) (cols : List String)
    (tk : ℕ) (tokens : Int) (thinking shw stream : Bool) (rer : Option Bool) (pd : Bool)
    (debug : Debug)
    (hoff : rer = some false ∨ (rer = none ∧ gen.rerank_disabled = true)
      ∨ gen.reranker = none)
    (hdbg : debug.reranking_enabled = false) :
    (standard_answer gen query cols tk tokens thinking shw stream rer pd debug).chunks =
      (gen.searchMulti query cols (chunk_allocation gen.config cols)).take tk
    ∧ (standard_answer gen query cols tk tokens thinking shw stream rer pd
        debug).debug.reranking_enabled = false := by
  cases hres : gen.searchMulti query cols (chunk_allocation gen.config cols) with
  | nil =>
    rw [standard_answer_of_empty gen query cols tk tokens thinking shw stream rer pd debug hres,
      no_results_eq]
    exact ⟨by simp, hdbg⟩
  | cons r t =>
    simp only [standard_answer, hres, List.isEmpty_cons, Bool.false_eq_true, if_false]
    rw [apply_reranking_off gen (r :: t) query tk rer
      { debug with total_results := (r :: t).length } hoff]
    obtain ⟨pdu, hpd⟩ := get_context_snd gen ((r :: t).take tk) pd
      { { { debug with total_results := (r :: t).length } with reranking_enabled := false } with
          chunks_used := some ((r :: t).take tk).length }
    rw [hpd]
    cases stream <;> simp [generate]

/-- C7: with reranking disabled — by explicit flag, by the process-wide
RERANK_DISABLED configuration, or because `get_reranker` yields no reranker
(failed initialization) — the trace records `reranking_enabled = false` and
the returned candidates are exactly the pre-rerank fused ordering truncated
to `top_k`; additionally, `get_reranker` returns no reranker when disabled
and when the constructor raises. -/
theorem C7_rerank_disabled_truncation (gen : AnswerGen) (query : String) (stream : Bool)
    (selected : Option (List String)) (top_k : Option ℕ)
    (enable_thinking show_thinking : Bool) (enable_reranking : Option Bool)
    (use_summary_gating use_parent_docs : Option Bool)
    (hgate : ∀ sr, gen.summaryRetriever = some sr → ∀ q cols n, sr q cols n = [])
    (hoff : enable_reranking = some false
      ∨ (enable_reranking = none ∧ gen.rerank_disabled = true)
      ∨ gen.reranker = none) :
    (answer_question gen query stream selected top_k enable_thinking show_thinking
        enable_reranking use_summary_gating use_parent_docs).debug.reranking_enabled = false
    ∧ (answer_question gen query stream selected top_k enable_thinking show_thinking
        enable_reranking use_summary_gating use_parent_docs).chunks
      = (gen.searchMulti query
          (route_query_step gen query selected (initDebug query enable_thinking top_k)).1
          (chunk_allocation gen.config
            (route_query_step gen query selected (initDebug query enable_thinking top_k)).1)).take
          (top_k.getD (gen.config.rag_top_k.getD 20))
    ∧ (∀ ib cache, (get_reranker true ib cache).1 = none ∨ ∃ c, cache = some c ∧ c = (get_reranker true ib cache).1)
    ∧ (∀ e, (get_reranker false (Except.error e) none).1 = none) := by
  have hg4 : ∀ e, (get_reranker false (Except.error e) none).1 = none := fun e => rfl
  have hg3 : ∀ ib cache, (get_reranker true ib cache).1 = none
      ∨ ∃ c, cache = some c ∧ c = (get_reranker true ib cache).1 := by
    intro ib cache
    cases cache with
    | none => exact Or.inl rfl
    | some c => exact Or.inr ⟨c, rfl, rfl⟩
  obtain ⟨ru, ta, colsr, hsplit⟩ := answer_question_split gen query stream selected top_k
    enable_thinking show_thinking enable_reranking use_summary_gating use_parent_docs
  rcases hsplit with heq | heq | ⟨sr, res, hsr, hg1, heq⟩
  · rw [heq]
    have h := standard_answer_off gen query
      (route_query_step gen query selected (initDebug query enable_thinking top_k)).1
      (top_k.getD (gen.config.rag_top_k.getD 20))
      (route_query_step gen query selected (initDebug query enable_thinking top_k)).2.1
      enable_thinking show_thinking stream enable_reranking
      (use_parent_docs.getD gen.return_parent_docs)
      (debugAfterRoute query enable_thinking top_k ru ta colsr
        (top_k.getD (gen.config.rag_top_k.getD 20))) hoff rfl
    exact ⟨h.2, h.1, hg3, hg4⟩
  · rw [heq]
    have h := standard_answer_off gen query
      (route_query_step gen query selected (initDebug query enable_thinking top_k)).1
      (top_k.getD (gen.config.rag_top_k.getD 20))
      (route_query_step gen query selected (initDebug query enable_thinking top_k)).2.1
      enable_thinking show_thinking stream enable_reranking
      (use_parent_docs.getD gen.return_parent_docs)
      { debugAfterRoute query enable_thinking top_k ru ta colsr
          (top_k.getD (gen.config.rag_top_k.getD 20)) with
        summary_gating_used := true } hoff rfl
    exact ⟨h.2, h.1, hg3, hg4⟩
  · rw [summary_gate_miss gen sr query _ _ enable_thinking show_thinking stream _
      (hgate sr hsr query _ gen.summary_top_n)] at hg1
    cases hg1

/-- C9 (amended): every `answer_question` invocation populates the trace's
query text, routing-used flag, token allocation and top-k (collections
searched, total results, reranking-enabled, summary-gating-used,
parent-docs-used and thinking flags are plain fields set unconditionally);
the final prompt length is populated exactly on the branches that build a
prompt (standard search with results, summary-gated hit), the answer length
additionally requires buffered mode, and the `NO_RESULTS` short-circuit —
the only path recording an error — leaves prompt length and answer length
absent. -/
theorem C9_trace_population (gen : AnswerGen) (query : String) (stream : Bool)
    (selected : Option (List String)) (top_k : Option ℕ)
    (enable_thinking show_thinking : Bool) (enable_reranking : Option Bool)
    (use_summary_gating use_parent_docs : Option Bool) :
    (answer_question gen query stream selected top_k enable_thinking show_thinking
        enable_reranking use_summary_gating use_parent_docs).debug.query = query
    ∧ (answer_question gen query stream selected top_k enable_thinking show_thinking
        enable_reranking use_summary_gating use_parent_docs).debug.routing_used.isSome = true
    ∧ (answer_question gen query stream selected top_k enable_thinking show_thinking
        enable_reranking use_summary_gating use_parent_docs).debug.token_allocation.isSome = true
    ∧ (answer_question gen query stream selected top_k enable_thinking show_thinking
        enable_reranking use_summary_gating use_parent_docs).debug.top_k_used.isSome = true
    ∧ ((answer_question gen query stream selected top_k enable_thinking show_thinking
          enable_reranking use_summary_gating use_parent_docs).debug.error = none →
        (answer_question gen query stream selected top_k enable_thinking show_thinking
          enable_reranking use_summary_gating use_parent_docs).debug.prompt_length.isSome = true)
    ∧ ((answer_question gen query stream selected top_k enable_thinking show_thinking
          enable_reranking use_summary_gating use_parent_docs).debug.error = none →
        stream = false →
        (answer_question gen query stream selected top_k enable_thinking show_thinking
          enable_reranking use_summary_gating use_parent_docs).debug.answer_length.isSome = true)
    ∧ ((answer_question gen query stream selected top_k enable_thinking show_thinking
          enable_reranking use_summary_gating use_parent_docs).debug.error.isSome = true →
        (answer_question gen query stream selected top_k enable_thinking show_thinking
          enable_reranking use_summary_gating use_parent_docs).debug.error = some "no_results"
        ∧ (answer_question gen query stream selected top_k enable_thinking show_thinking
            enable_reranking use_summary_gating use_parent_docs).debug.prompt_length = none
        ∧ (answer_question gen query stream selected top_k enable_thinking show_thinking
            enable_reranking use_summary_gating use_parent_docs).debug.answer_length = none) := by
  obtain ⟨ru, ta, colsr, hsplit⟩ := answer_question_split gen query stream selected top_k
    enable_thinking show_thinking enable_reranking use_summary_gating use_parent_docs
  rcases hsplit with heq | heq | ⟨sr, res, hsr, hg1, heq⟩
  · rw [heq]
    obtain ⟨h1, h2, h3, h4, h5⟩ := standard_answer_props gen query
      (route_query_step gen query selected (initDebug query enable_thinking top_k)).1
      (top_k.getD (gen.config.rag_top_k.getD 20))
      (route_query_step gen query selected (initDebug query enable_thinking top_k)).2.1
      enable_thinking show_thinking stream enable_reranking
      (use_parent_docs.getD gen.return_parent_docs)
      (debugAfterRoute query enable_thinking top_k ru ta colsr
        (top_k.getD (gen.config.rag_top_k.getD 20)))
    refine ⟨h1, by rw [h2]; simp [debugAfterRoute, initDebug], by rw [h3]; simp [debugAfterRoute, initDebug], by rw [h4]; simp [debugAfterRoute, initDebug], ?_, ?_, ?_⟩
    · intro he
      rcases h5 with ⟨he2, hp2, ha2⟩ | ⟨he2, hp2, ha2⟩
      · exact hp2
      · simp [he] at he2
    · intro he hst
      rcases h5 with ⟨he2, hp2, ha2⟩ | ⟨he2, hp2, ha2⟩
      · exact ha2 hst
      · simp [he] at he2
    · intro hse
      rcases h5 with ⟨he2, hp2, ha2⟩ | ⟨he2, hp2, ha2⟩
      · rw [he2] at hse
        exact absurd hse (by simp [debugAfterRoute, initDebug])
      · exact ⟨he2, by rw [hp2]; simp [debugAfterRoute, initDebug], by rw [ha2]; simp [debugAfterRoute, initDebug]⟩
  · rw [heq]
    obtain ⟨h1, h2, h3, h4, h5⟩ := standard_answer_props gen query
      (route_query_step gen query selected (initDebug query enable_thinking top_k)).1
      (top_k.getD (gen.config.rag_top_k.getD 20))
      (route_query_step gen query selected (initDebug query enable_thinking top_k)).2.1
      enable_thinking show_thinking stream enable_reranking
      (use_parent_docs.getD gen.return_parent_docs)
      { debugAfterRoute query enable_thinking top_k ru ta colsr
          (top_k.getD (gen.config.rag_top_k.getD 20)) with
        summary_gating_used := true }
    refine ⟨h1, by rw [h2]; simp [debugAfterRoute, initDebug], by rw [h3]; simp [debugAfterRoute, initDebug], by rw [h4]; simp [debugAfterRoute, initDebug], ?_, ?_, ?_⟩
    · intro he
      rcases h5 with ⟨he2, hp2, ha2⟩ | ⟨he2, hp2, ha2⟩
      · exact hp2
      · simp [he] at he2
    · intro he hst
      rcases h5 with ⟨he2, hp2, ha2⟩ | ⟨he2, hp2, ha2⟩
      · exact ha2 hst
      · simp [he] at he2
    · intro hse
      rcases h5 with ⟨he2, hp2, ha2⟩ | ⟨he2, hp2, ha2⟩
      · rw [he2] at hse
        exact absurd hse (by simp [debugAfterRoute, initDebug])
      · exact ⟨he2, by rw [hp2]; simp [debugAfterRoute, initDebug], by rw [ha2]; simp [debugAfterRoute, initDebug]⟩
  · rw [heq]
    obtain ⟨h1, h2, h3, h4, h5, h6, h7⟩ := summary_gated_some_props gen sr query
      (route_query_step gen query selected (initDebug query enable_thinking top_k)).1
      (route_query_step gen query selected (initDebug query enable_thinking top_k)).2.1
      enable_thinking show_thinking stream
      (debugAfterRoute query enable_thinking top_k ru ta colsr
        (top_k.getD (gen.config.rag_top_k.getD 20))) res hg1
    refine ⟨h1, by rw [h2]; simp [debugAfterRoute, initDebug], by rw [h3]; simp [debugAfterRoute, initDebug], by rw [h4]; simp [debugAfterRoute, initDebug], fun _ => h6, fun _ => h7, ?_⟩
    intro hse
    rw [h5] at hse
    exact absurd hse (by simp [debugAfterRoute, initDebug])

theorem C8_chunk_allocation_witness :
    (chunk_allocation
        { rag_top_k := none, base_chunks_per_collection := some 8, priority_boost := some 4,
          collection_priority := some ["courses"], metadata_display_keys := none,
          llm_max_tokens := none } ["courses", "handbook"]).lookup "handbook" = some 8 := by
  have h := C8_chunk_allocation_budget
    { rag_top_k := none, base_chunks_per_collection := some 8, priority_boost := some 4,
      collection_priority := some ["courses"], metadata_display_keys := none,
      llm_max_tokens := none } ["courses", "handbook"] ["courses"] "handbook" rfl (by decide)
  simpa using h

/-- Concrete configuration for the orchestrator witnesses. -/
def wGenConfig : GenConfig :=
  { rag_top_k := some 20, base_chunks_per_collection := some 8, priority_boost := some 4,
    collection_priority := some ["courses"], metadata_display_keys := none,
    llm_max_tokens := some 15000 }

/-- Orchestrator whose search finds nothing: no router, no summary
retriever, no docstore, no reranker. -/
def wGen : AnswerGen :=
  { config := wGenConfig, router := none, searchMulti := fun _ _ _ => [],
    summaryRetriever := none, docstore := none, reranker := none,
    llmRespond := fun _ _ => "an answer", llmStream := fun _ _ => ["an answer"],
    collectionKeys := ["courses"], enable_summary_gating := false, summary_top_n := 5,
    return_parent_docs := false, rerank_disabled := false }

/-- Orchestrator with one search hit and no reranker. -/
def wGen2 : AnswerGen :=
  { wGen with searchMulti := fun _ _ _ => [wFrag "hello world" 1 "courses"] }

/-- C9 counterexample: on the no-results short-circuit the trace's
prompt-length and answer-length keys are absent, so the claim that every
branch populates every AnswerTrace field with none omitted is false at this
concrete invocation. -/
theorem C9_no_results_trace_counterexample :
    (answer_question wGen "q" false none none true false none none none).debug.error
      = some "no_results"
    ∧ (answer_question wGen "q" false none none true false none none none).debug.prompt_length
      = none
    ∧ (answer_question wGen "q" false none none true false none none none).debug.answer_length
      = none :=
  ⟨rfl, rfl, rfl⟩

theorem C2_no_results_witness :
    (answer_question wGen "q" false none none true false none none none).payload
      = (if false then Payload.streamed [no_results_message]
         else Payload.buffered no_results_message)
    ∧ (answer_question wGen "q" false none none true false none none none).debug.error
      = some "no_results"
    ∧ (answer_question wGen "q" false none none true false none none none).llmCalls = 0
    ∧ (answer_question wGen "q" false none none true false none none none).chunks = [] :=
  C2_no_results_short_circuit wGen "q" false none none true false none none none
    (fun _ _ _ => rfl) (fun _ h => Option.noConfusion h)

theorem C7_rerank_disabled_witness :
    (answer_question wGen2 "q" false none none true false none none none).debug.reranking_enabled
      = false
    ∧ (answer_question wGen2 "q" false none none true false none none none).chunks
      = (wGen2.searchMulti "q"
          (route_query_step wGen2 "q" none (initDebug "q" true none)).1
          (chunk_allocation wGen2.config
            (route_query_step wGen2 "q" none (initDebug "q" true none)).1)).take
          ((none : Option ℕ).getD (wGen2.config.rag_top_k.getD 20)) := by
  have h := C7_rerank_disabled_truncation wGen2 "q" false none none true false none none none
    (fun _ hs => Option.noConfusion hs) (Or.inr (Or.inr rfl))
  exact ⟨h.1, h.2.1⟩

theorem C9_trace_witness :
    (answer_question wGen2 "q" false none none true false none none none).debug.query = "q"
    ∧ (answer_question wGen2 "q" false none none true false none none
        none).debug.prompt_length.isSome = true := by
  have h := C9_trace_population wGen2 "q" false none none true false none none none
  exact ⟨h.1, h.2.2.2.2.1 rfl⟩

end CoreRag
